import Mathlib

/-!
Shallow embedding of src/irename.py (KamalDGRT/irename).

Python datetime values are modelled as six calendar fields compared
lexicographically, exactly as Python datetime comparison behaves.
Filesystem timestamps are modelled after the fromtimestamp conversion,
i.e. as DateTime values; st_birthtime is an Option because some systems
do not expose it, in which case the attribute access raises
AttributeError in Python.
-/

deriving instance DecidableEq for Except

namespace IRename

structure DateTime where
  year : Nat
  month : Nat
  day : Nat
  hour : Nat
  minute : Nat
  second : Nat
deriving DecidableEq

/-- Lexicographic strict order on datetimes, matching Python datetime comparison. -/
def dtLtP (a b : DateTime) : Prop :=
  a.year < b.year ∨ (a.year = b.year ∧ (a.month < b.month ∨ (a.month = b.month ∧
    (a.day < b.day ∨ (a.day = b.day ∧ (a.hour < b.hour ∨ (a.hour = b.hour ∧
      (a.minute < b.minute ∨ (a.minute = b.minute ∧ a.second < b.second)))))))))

instance (a b : DateTime) : Decidable (dtLtP a b) := by
  unfold dtLtP; exact inferInstance

def dtLeP (a b : DateTime) : Prop := dtLtP a b ∨ a = b

instance (a b : DateTime) : Decidable (dtLeP a b) := by
  unfold dtLeP; exact inferInstance

/-- Python min of two values: the first argument wins ties. -/
def pymin2 (a b : DateTime) : DateTime := if dtLtP b a then b else a

/-- Python min of three values, as the builtin min scans left to right. -/
def pymin3 (a b c : DateTime) : DateTime := pymin2 (pymin2 a b) c

theorem dtLtP_asymm (a b : DateTime) (h : dtLtP a b) : ¬ dtLtP b a := by
  cases a; cases b
  simp only [dtLtP] at *
  omega

theorem dtLtP_connex (a b : DateTime) (h : ¬ dtLtP a b) : dtLtP b a ∨ b = a := by
  cases a; cases b
  simp only [dtLtP, DateTime.mk.injEq] at *
  omega

theorem pymin2_eq_or (a b : DateTime) : pymin2 a b = a ∨ pymin2 a b = b := by
  unfold pymin2; split <;> simp

theorem pymin2_le_left (a b : DateTime) : dtLeP (pymin2 a b) a := by
  unfold pymin2; split
  · exact Or.inl (by assumption)
  · exact Or.inr rfl

theorem pymin2_le_right (a b : DateTime) : dtLeP (pymin2 a b) b := by
  unfold pymin2; split
  · exact Or.inr rfl
  · rename_i h
    rcases dtLtP_connex b a h with h2 | h2
    · exact Or.inl h2
    · exact Or.inr h2

theorem pymin2_left_of_lt (a b : DateTime) (h : dtLtP a b) : pymin2 a b = a := by
  unfold pymin2
  rw [if_neg (dtLtP_asymm a b h)]

/-- Split a list of characters on a separator, like str.split with a
one-character separator in Python (used to model strptime field extraction
and os.path.splitext over the char list of a string). -/
def splitOnChar (c : Char) : List Char → List (List Char)
  | [] => [[]]
  | x :: xs =>
    let r := splitOnChar c xs
    if x = c then [] :: r
    else
      match r with
      | [] => [[x]]
      | g :: gs => (x :: g) :: gs

/-- Value of a nonempty all-digit character run; none otherwise. -/
def digitsToNat (cs : List Char) : Option Nat :=
  if cs ≠ [] ∧ cs.all Char.isDigit then
    some (cs.foldl (fun acc c => acc * 10 + (c.toNat - 48)) 0)
  else none

/-- A one-or-two digit strptime field constrained to the range lo..hi,
mirroring the regular expressions CPython strptime uses for the
directives m, d, H, M and S. -/
def parseField (cs : List Char) (lo hi : Nat) : Option Nat :=
  match digitsToNat cs with
  | some n =>
      if cs.length ≤ 2 ∧ lo ≤ n ∧ n ≤ hi then some n else none
  | none => none

def isLeapYear (y : Nat) : Bool :=
  (y % 4 == 0 && y % 100 != 0) || (y % 400 == 0)

def daysInMonth (y m : Nat) : Nat :=
  if m = 2 then (if isLeapYear y then 29 else 28)
  else if m = 4 ∨ m = 6 ∨ m = 9 ∨ m = 11 then 30
  else 31

/-- create_datetime of the source: datetime.strptime with the fixed
format string of pattern year:month:day hour:minute:second. A
ValueError from strptime is modelled as none: exactly four digits for
the year (at least 1, since datetime rejects year 0), one or two digits
for every other field, field ranges checked, and the day checked
against the length of the month including leap years. -/
def create_datetime (data : String) : Option DateTime :=
  match splitOnChar ' ' data.toList with
  | [dpart, tpart] =>
    match splitOnChar ':' dpart, splitOnChar ':' tpart with
    | [ys, ms, ds], [hs, ns, ss] =>
      match digitsToNat ys with
      | some y =>
        if ys.length = 4 ∧ 1 ≤ y then
          match parseField ms 1 12, parseField ds 1 31, parseField hs 0 23,
                parseField ns 0 59, parseField ss 0 59 with
          | some mo, some d, some h, some mi, some s =>
              if d ≤ daysInMonth y mo then some ⟨y, mo, d, h, mi, s⟩ else none
          | _, _, _, _, _ => none
        else none
      | none => none
    | _, _ => none
  | _ => none

/-- os.path.splitext, second component: the extension starts at the last
dot, unless every character before that dot is itself a dot (leading
dots of a file name never start an extension). File names here contain
no directory separator, matching os.listdir output. -/
def splitext_ext (name : String) : String :=
  let cs := name.toList
  match (List.range cs.length).foldl
      (fun acc j => if cs.getD j ' ' = '.' then some j else acc) none with
  | none => ""
  | some i => if (cs.take i).any (fun c => c ≠ '.') then String.mk (cs.drop i) else ""

/-- The valid_image_extensions list of the source, verbatim. -/
def valid_image_extensions : List String :=
  [".jpg", ".JPG", ".jpeg", ".JPEG", ".png", ".PNG", ".heic", ".HEIC"]

/-- The valid_video_extensions list of the source, verbatim. -/
def valid_video_extensions : List String :=
  [".MOV", ".mov", ".MP4", ".mp4", ".MKV", ".mkv"]

def get_file_prefix (file_ext : String) : String :=
  if file_ext ∈ valid_image_extensions then "IMG_"
  else if file_ext ∈ valid_video_extensions then "VID_"
  else ""

def pad2 (n : Nat) : String := if n < 10 then "0" ++ toString n else toString n

def pad4 (n : Nat) : String :=
  if n < 10 then "000" ++ toString n
  else if n < 100 then "00" ++ toString n
  else if n < 1000 then "0" ++ toString n
  else toString n

/-- strftime with the compact format of the source: year, month, day,
an underscore, hour, minute, second, all zero padded, 24-hour clock,
no timezone conversion. -/
def strftime_compact (d : DateTime) : String :=
  pad4 d.year ++ pad2 d.month ++ pad2 d.day ++ "_" ++
    pad2 d.hour ++ pad2 d.minute ++ pad2 d.second

/-- get_new_file_name of the source. The file_extension parameter is
declared but never read: the body uses the module global file_ext (set
by the main loop), modelled here as the explicit last argument. -/
def get_new_file_name (date : DateTime) (file_extension : String) (file_ext : String) : String :=
  get_file_prefix file_ext ++ strftime_compact date ++ file_ext

/-- The Python exceptions that can arise in the per-file pipeline. -/
inductive PyError where
  | exifMetadataNotFound
  | dateNotFoundInFile
  | unidentifiedImage
  | valueError
  | attributeError
deriving DecidableEq

/-- Filesystem timestamps of a file after the fromtimestamp conversion:
dt_m from getmtime, dt_c from getctime, and st_birthtime, which some
systems do not expose (none models the missing attribute). -/
structure FileStat where
  dt_m : DateTime
  dt_c : DateTime
  birth : Option DateTime
deriving DecidableEq

/-- get_file_creation_date of the source: read mtime and ctime, then
access stat.st_birthtime unconditionally. On a system that does not
expose st_birthtime the attribute access raises AttributeError; there
is no substitution. Otherwise return min of the three. -/
def get_file_creation_date (st : FileStat) : Except PyError DateTime :=
  match st.birth with
  | none => .error .attributeError
  | some b => .ok (pymin3 st.dt_m st.dt_c b)

/-- Metadata of a decodable image: the getexif mapping as an association
list from EXIF tag number to string value (none models metadata being
None), and the string exifread yields for the EXIF DateTimeOriginal tag
(the empty string when the tag is absent, as str of the default). -/
structure ImageMeta where
  exif : Option (List (Nat × String))
  exifreadDTO : String
deriving DecidableEq

/-- A directory entry: its name, its stat timestamps, and its image
content; none models a file Image.open cannot decode
(UnidentifiedImageError). -/
structure MediaFile where
  name : String
  stat : FileStat
  image : Option ImageMeta
deriving DecidableEq

/-- Lines 119 to 133 of the source: the metadata is None check, then tag
36867 (DateTimeOriginal), then tag 306 (DateTime), each parsed with
create_datetime (an unparsable value raises ValueError, uncaught); only
when both tags are absent, the exifread pathway for the same
DateTimeOriginal field, whose empty result raises DateNotFoundInFile. -/
def image_date_taken (img : ImageMeta) : Except PyError DateTime :=
  match img.exif with
  | none => .error .exifMetadataNotFound
  | some tags =>
    match tags.lookup 36867 with
    | some s =>
      match create_datetime s with
      | some dt => .ok dt
      | none => .error .valueError
    | none =>
      match tags.lookup 306 with
      | some s =>
        match create_datetime s with
        | some dt => .ok dt
        | none => .error .valueError
      | none =>
        if img.exifreadDTO.length > 0 then
          match create_datetime img.exifreadDTO with
          | some dt => .ok dt
          | none => .error .valueError
        else .error .dateNotFoundInFile

/-- get_image_file_name of the source. Image.open failure is the
unidentifiedImage error; then the date chain of image_date_taken, then
the earlier-of step against get_file_creation_date, then formatting.
file_ext_g is the module global file_ext read by get_new_file_name. -/
def get_image_file_name (file_ext_g : String) (f : MediaFile) : Except PyError String :=
  match f.image with
  | none => .error .unidentifiedImage
  | some img => do
    let date_taken ← image_date_taken img
    let method_1_dt ← get_file_creation_date f.stat
    let earlier_date := pymin2 method_1_dt date_taken
    pure (get_new_file_name earlier_date (splitext_ext f.name) file_ext_g)

/-- The observable state of one run: renames performed (old path, new
path), the two append-only logs meta_not_found.txt and
date_not_found.txt (file names, one per line), and console lines. -/
structure RunState where
  renames : List (String × String)
  metaNotFound : List String
  dateNotFound : List String
  console : List String
deriving DecidableEq

def initState : RunState := ⟨[], [], [], []⟩

/-- os.path.join for a folder with no trailing separator and a plain
relative file name. -/
def path_join (folder name : String) : String := folder ++ "/" ++ name

/-- Lines 166 to 175 of the source (repeated at 188 to 198): build both
paths, skip when they are equal, otherwise print the pair and rename. -/
def do_rename (folder : String) (st : RunState) (old_name new_name : String) : RunState :=
  let oldp := path_join folder old_name
  let newp := path_join folder new_name
  if oldp = newp then
    { st with console := st.console ++ ["Skipping rename! -" ++ oldp] }
  else
    { st with
      console := st.console ++
        ["Old Name: " ++ oldp, "New Name: " ++ newp, "----------------------------"],
      renames := st.renames ++ [(oldp, newp)] }

/-- One iteration of the main loop: classify by extension (anything
unrecognized is skipped), image or video pipeline, rename section, and
the two except handlers. The ExifMetadataNotFound handler only logs and
prints; the DateNotFoundInFile handler logs, prints, recomputes a name
from the filesystem timestamp, and reruns the rename section. Any other
exception is uncaught and is returned alongside the state reached. -/
def process_file (folder : String) (st : RunState) (f : MediaFile) :
    RunState × Option PyError :=
  let file_ext := splitext_ext f.name
  if file_ext ∈ valid_image_extensions then
    match get_image_file_name file_ext f with
    | .ok new_file_name => (do_rename folder st f.name new_file_name, none)
    | .error .exifMetadataNotFound =>
        ({ st with
           metaNotFound := st.metaNotFound ++ [f.name],
           console := st.console ++ ["EXIF metadata not found in file: " ++ f.name] },
         none)
    | .error .dateNotFoundInFile =>
        let st1 := { st with
          dateNotFound := st.dateNotFound ++ [f.name],
          console := st.console ++ ["Date not found in file: " ++ f.name] }
        match get_file_creation_date f.stat with
        | .ok dt =>
            (do_rename folder st1 f.name (get_new_file_name dt file_ext file_ext), none)
        | .error e => (st1, some e)
    | .error e => (st, some e)
  else if file_ext ∈ valid_video_extensions then
    match get_file_creation_date f.stat with
    | .ok dt => (do_rename folder st f.name (get_new_file_name dt file_ext file_ext), none)
    | .error e => (st, some e)
  else (st, none)

/-- The main loop over the directory listing; an uncaught exception
stops the run at the file that raised it. -/
def run_files (folder : String) (st : RunState) : List MediaFile → RunState × Option PyError
  | [] => (st, none)
  | f :: rest =>
    match process_file folder st f with
    | (st2, none) => run_files folder st2 rest
    | (st2, some e) => (st2, some e)

def run_main (folder : String) (files : List MediaFile) : RunState × Option PyError :=
  run_files folder initState files

/-- The kind of recognized media, as the spec classifies it. -/
inductive MediaKind where
  | image
  | video
deriving DecidableEq

/-- The Name Formatter contract stated by the spec: a kind prefix, the
timestamp body with zero padding, then the original extension verbatim. -/
def format_spec (d : DateTime) (k : MediaKind) (ext : String) : String :=
  (match k with
   | .image => "IMG_"
   | .video => "VID_") ++
  pad4 d.year ++ pad2 d.month ++ pad2 d.day ++ "_" ++
    pad2 d.hour ++ pad2 d.minute ++ pad2 d.second ++ ext

theorem dtLeP_trans (a b c : DateTime) (h1 : dtLeP a b) (h2 : dtLeP b c) : dtLeP a c := by
  cases a; cases b; cases c
  simp only [dtLeP, dtLtP, DateTime.mk.injEq] at *
  omega

theorem pymin3_le1 (a b c : DateTime) : dtLeP (pymin3 a b c) a :=
  dtLeP_trans _ _ _ (pymin2_le_left (pymin2 a b) c) (pymin2_le_left a b)

theorem pymin3_le2 (a b c : DateTime) : dtLeP (pymin3 a b c) b :=
  dtLeP_trans _ _ _ (pymin2_le_left (pymin2 a b) c) (pymin2_le_right a b)

theorem pymin3_le3 (a b c : DateTime) : dtLeP (pymin3 a b c) c :=
  pymin2_le_right (pymin2 a b) c

theorem pymin3_eq_or (a b c : DateTime) :
    pymin3 a b c = a ∨ pymin3 a b c = b ∨ pymin3 a b c = c := by
  unfold pymin3
  rcases pymin2_eq_or (pymin2 a b) c with h | h
  · rcases pymin2_eq_or a b with h2 | h2
    · exact Or.inl (h.trans h2)
    · exact Or.inr (Or.inl (h.trans h2))
  · exact Or.inr (Or.inr h)

theorem video_not_image (e : String) (h : e ∈ valid_video_extensions) :
    e ∉ valid_image_extensions := by
  simp only [valid_video_extensions] at h
  fin_cases h <;> decide

theorem path_join_inj (folder a b : String) (h : path_join folder a = path_join folder b) :
    a = b := by
  unfold path_join at h
  have hd := congrArg String.data h
  simp only [String.data_append] at hd
  exact String.ext (List.append_cancel_left hd)

/-- C1: for every image file whose metadata yields a parseable capture
date, the resolved timestamp is the minimum of the metadata date and the
filesystem timestamp (it bounds both, and is one of them); in
particular, when the metadata date is later than the filesystem
timestamp, the filesystem timestamp is the one used for the new name. -/
theorem c1_earlier_of_rule (g : String) (f : MediaFile) (img : ImageMeta)
    (dt fs : DateTime)
    (himg : f.image = some img)
    (hdt : image_date_taken img = Except.ok dt)
    (hfs : get_file_creation_date f.stat = Except.ok fs) :
    get_image_file_name g f =
      Except.ok (get_new_file_name (pymin2 fs dt) (splitext_ext f.name) g) ∧
    dtLeP (pymin2 fs dt) dt ∧ dtLeP (pymin2 fs dt) fs ∧
    (pymin2 fs dt = dt ∨ pymin2 fs dt = fs) ∧
    (dtLtP fs dt → pymin2 fs dt = fs) := by
  refine ⟨?_, pymin2_le_right fs dt, pymin2_le_left fs dt,
    (pymin2_eq_or fs dt).symm, fun h => pymin2_left_of_lt fs dt h⟩
  simp [get_image_file_name, himg, hdt, hfs, Except.instMonad, Except.bind, Except.pure]

/-- C1 witness: a concrete image whose EXIF date 2018-04-01 17:54:17 is
later than the filesystem minimum 2018-03-01, so the filesystem
timestamp names the file. -/
theorem c1_earlier_of_rule_witness :
    get_image_file_name ".jpg"
        ⟨"a.jpg", ⟨⟨2018,3,1,0,0,0⟩, ⟨2018,5,1,0,0,0⟩, some ⟨2018,4,5,0,0,0⟩⟩,
          some ⟨some [(36867, "2018:04:01 17:54:17")], ""⟩⟩ =
      Except.ok (get_new_file_name
        (pymin2 ⟨2018,3,1,0,0,0⟩ ⟨2018,4,1,17,54,17⟩) (splitext_ext "a.jpg") ".jpg") ∧
    dtLeP (pymin2 ⟨2018,3,1,0,0,0⟩ ⟨2018,4,1,17,54,17⟩) ⟨2018,4,1,17,54,17⟩ ∧
    dtLeP (pymin2 ⟨2018,3,1,0,0,0⟩ ⟨2018,4,1,17,54,17⟩) ⟨2018,3,1,0,0,0⟩ ∧
    (pymin2 ⟨2018,3,1,0,0,0⟩ ⟨2018,4,1,17,54,17⟩ = ⟨2018,4,1,17,54,17⟩ ∨
      pymin2 ⟨2018,3,1,0,0,0⟩ ⟨2018,4,1,17,54,17⟩ = ⟨2018,3,1,0,0,0⟩) ∧
    (dtLtP ⟨2018,3,1,0,0,0⟩ ⟨2018,4,1,17,54,17⟩ →
      pymin2 ⟨2018,3,1,0,0,0⟩ ⟨2018,4,1,17,54,17⟩ = ⟨2018,3,1,0,0,0⟩) :=
  c1_earlier_of_rule ".jpg" _ _ ⟨2018,4,1,17,54,17⟩ ⟨2018,3,1,0,0,0⟩ rfl (by decide) (by decide)

/-- C2 counterexample: on a stat with no birth time the subroutine does
not return a result at all; the attribute access fails, contradicting
the claimed substitution of the last-status-change time. -/
theorem c2_counterexample :
    get_file_creation_date ⟨⟨2020,1,1,10,0,0⟩, ⟨2020,1,2,9,0,0⟩, none⟩ =
      Except.error PyError.attributeError := by decide

/-- C2 amended: when the system exposes a birth time, the result is the
minimum of last-modified, last-status-change and birth time; when it
does not, the unconditional st_birthtime access raises AttributeError —
no substitution happens and no result is returned. -/
theorem c2_fs_min (st : FileStat) :
    (∀ b, st.birth = some b →
      ∃ r, get_file_creation_date st = Except.ok r ∧
        dtLeP r st.dt_m ∧ dtLeP r st.dt_c ∧ dtLeP r b ∧
        (r = st.dt_m ∨ r = st.dt_c ∨ r = b)) ∧
    (st.birth = none → get_file_creation_date st = Except.error PyError.attributeError) := by
  constructor
  · intro b hb
    refine ⟨pymin3 st.dt_m st.dt_c b, ?_, pymin3_le1 _ _ _, pymin3_le2 _ _ _,
      pymin3_le3 _ _ _, pymin3_eq_or _ _ _⟩
    simp [get_file_creation_date, hb]
  · intro hb
    simp [get_file_creation_date, hb]

/-- C2 witness: the spec scenario stat (mtime 2020-01-01 10:00,
ctime 2020-01-02 09:00) with a birth time present. -/
theorem c2_fs_min_witness :
    ∃ r, get_file_creation_date
        ⟨⟨2020,1,1,10,0,0⟩, ⟨2020,1,2,9,0,0⟩, some ⟨2020,1,2,9,0,0⟩⟩ = Except.ok r ∧
      dtLeP r ⟨2020,1,1,10,0,0⟩ ∧ dtLeP r ⟨2020,1,2,9,0,0⟩ ∧ dtLeP r ⟨2020,1,2,9,0,0⟩ ∧
      (r = ⟨2020,1,1,10,0,0⟩ ∨ r = ⟨2020,1,2,9,0,0⟩ ∨ r = ⟨2020,1,2,9,0,0⟩) :=
  (c2_fs_min ⟨⟨2020,1,1,10,0,0⟩, ⟨2020,1,2,9,0,0⟩, some ⟨2020,1,2,9,0,0⟩⟩).1
    ⟨2020,1,2,9,0,0⟩ rfl

/-- C6: a video file is resolved to the filesystem-derived timestamp
directly — the minimum of mtime, ctime and birth time — with no
comparison against any metadata candidate: the image content is
universally quantified and the outcome does not mention it. -/
theorem c6_video_fs_only (folder : String) (st : RunState) (name : String)
    (fst : FileStat) (img : Option ImageMeta) (b : DateTime)
    (hb : fst.birth = some b)
    (hv : splitext_ext name ∈ valid_video_extensions) :
    process_file folder st ⟨name, fst, img⟩ =
      (do_rename folder st name
        (get_new_file_name (pymin3 fst.dt_m fst.dt_c b)
          (splitext_ext name) (splitext_ext name)), none) ∧
    dtLeP (pymin3 fst.dt_m fst.dt_c b) fst.dt_m ∧
    dtLeP (pymin3 fst.dt_m fst.dt_c b) fst.dt_c ∧
    dtLeP (pymin3 fst.dt_m fst.dt_c b) b ∧
    (pymin3 fst.dt_m fst.dt_c b = fst.dt_m ∨ pymin3 fst.dt_m fst.dt_c b = fst.dt_c ∨
      pymin3 fst.dt_m fst.dt_c b = b) := by
  refine ⟨?_, pymin3_le1 _ _ _, pymin3_le2 _ _ _, pymin3_le3 _ _ _, pymin3_eq_or _ _ _⟩
  have hni := video_not_image _ hv
  simp [process_file, hni, hv, get_file_creation_date, hb]

/-- C6 witness: the spec scenario, a .mkv file with mtime
2020-01-01 10:00:00 and ctime = birth time 2020-01-02 09:00:00. -/
theorem c6_video_fs_only_witness :
    process_file "d" initState
        ⟨"v.mkv", ⟨⟨2020,1,1,10,0,0⟩, ⟨2020,1,2,9,0,0⟩, some ⟨2020,1,2,9,0,0⟩⟩, none⟩ =
      (do_rename "d" initState "v.mkv"
        (get_new_file_name (pymin3 ⟨2020,1,1,10,0,0⟩ ⟨2020,1,2,9,0,0⟩ ⟨2020,1,2,9,0,0⟩)
          (splitext_ext "v.mkv") (splitext_ext "v.mkv")), none) ∧
    dtLeP (pymin3 ⟨2020,1,1,10,0,0⟩ ⟨2020,1,2,9,0,0⟩ ⟨2020,1,2,9,0,0⟩) ⟨2020,1,1,10,0,0⟩ ∧
    dtLeP (pymin3 ⟨2020,1,1,10,0,0⟩ ⟨2020,1,2,9,0,0⟩ ⟨2020,1,2,9,0,0⟩) ⟨2020,1,2,9,0,0⟩ ∧
    dtLeP (pymin3 ⟨2020,1,1,10,0,0⟩ ⟨2020,1,2,9,0,0⟩ ⟨2020,1,2,9,0,0⟩) ⟨2020,1,2,9,0,0⟩ ∧
    (pymin3 ⟨2020,1,1,10,0,0⟩ ⟨2020,1,2,9,0,0⟩ ⟨2020,1,2,9,0,0⟩ = ⟨2020,1,1,10,0,0⟩ ∨
      pymin3 ⟨2020,1,1,10,0,0⟩ ⟨2020,1,2,9,0,0⟩ ⟨2020,1,2,9,0,0⟩ = ⟨2020,1,2,9,0,0⟩ ∨
      pymin3 ⟨2020,1,1,10,0,0⟩ ⟨2020,1,2,9,0,0⟩ ⟨2020,1,2,9,0,0⟩ = ⟨2020,1,2,9,0,0⟩) :=
  c6_video_fs_only "d" initState "v.mkv" _ none ⟨2020,1,2,9,0,0⟩ rfl (by decide)

/-- C7: the name formatter is total and pure, and for every timestamp
and recognized extension it produces exactly the kind prefix, the
zero-padded body, and the original extension verbatim, matching the
formatter contract of the spec. -/
theorem c7_formatter (d : DateTime) (p g : String) :
    (g ∈ valid_image_extensions → get_new_file_name d p g = format_spec d MediaKind.image g) ∧
    (g ∈ valid_video_extensions → get_new_file_name d p g = format_spec d MediaKind.video g) := by
  constructor
  · intro h
    have hp : get_file_prefix g = "IMG_" := by simp [ get_file_prefix, h]
    simp [get_new_file_name, format_spec, strftime_compact, hp, String.append_assoc]
  · intro h
    have hni := video_not_image _ h
    have hp : get_file_prefix g = "VID_" := by simp [ get_file_prefix, h, hni]
    simp [get_new_file_name, format_spec, strftime_compact, hp, String.append_assoc]

/-- C7 witness: the round-trip example of the spec, EXIF date
2018-04-01 17:54:17 with extension .jpg. -/
theorem c7_formatter_witness :
    get_new_file_name ⟨2018,4,1,17,54,17⟩ "ignored" ".jpg" =
      format_spec ⟨2018,4,1,17,54,17⟩ MediaKind.image ".jpg" :=
  (c7_formatter ⟨2018,4,1,17,54,17⟩ "ignored" ".jpg").1 (by decide)

/-- C9: the rename section skips exactly when the computed name equals
the current name: equal names leave the rename list unchanged, and
different names append exactly one rename; moreover a file whose image
pipeline computes its current name is fully skipped with no error. -/
theorem c9_idempotence_guard (folder : String) (st : RunState) (old_name new_name : String) :
    (old_name = new_name →
      (do_rename folder st old_name new_name).renames = st.renames) ∧
    (old_name ≠ new_name →
      (do_rename folder st old_name new_name).renames =
        st.renames ++ [(path_join folder old_name, path_join folder new_name)]) ∧
    (∀ f : MediaFile, splitext_ext f.name ∈ valid_image_extensions →
      get_image_file_name (splitext_ext f.name) f = Except.ok f.name →
      (process_file folder st f).1.renames = st.renames ∧ (process_file folder st f).2 = none) := by
  refine ⟨?_, ?_, ?_⟩
  · intro h
    simp [do_rename, h]
  · intro h
    have hp : path_join folder old_name ≠ path_join folder new_name :=
      fun he => h (path_join_inj folder _ _ he)
    simp [do_rename, hp]
  · intro f hi hok
    have hr : (do_rename folder st f.name f.name).renames = st.renames := by
      simp [do_rename]
    constructor
    · simp [process_file, hi, hok, hr]
    · simp [process_file, hi, hok]

/-- C9 witness: an already canonically named image file is skipped and
a differently named one yields exactly one rename entry. -/
theorem c9_idempotence_guard_witness :
    ("x.jpg" = "x.jpg" → (do_rename "d" initState "x.jpg" "x.jpg").renames = initState.renames) ∧
    ("x.jpg" ≠ "y.jpg" → (do_rename "d" initState "x.jpg" "y.jpg").renames =
      initState.renames ++ [(path_join "d" "x.jpg", path_join "d" "y.jpg")]) := by
  have h := c9_idempotence_guard "d" initState "x.jpg" "y.jpg"
  have h2 := c9_idempotence_guard "d" initState "x.jpg" "x.jpg"
  exact ⟨fun _ => h2.1 rfl, fun hne => h.2.1 hne⟩

/-- C10: the result of get_new_file_name does not depend on its
file_extension parameter — both the prefix and the appended extension
come from the module global file_ext, the last argument here. -/
theorem c10_param_unused (d : DateTime) (e1 e2 g : String) :
    get_new_file_name d e1 g = get_new_file_name d e2 g := rfl

/-- A sample stat with all three timestamps present, minimum at mtime
2018-03-01 00:00:00. -/
def statA : FileStat := ⟨⟨2018,3,1,0,0,0⟩, ⟨2018,5,1,0,0,0⟩, some ⟨2018,4,5,0,0,0⟩⟩

/-- C3 counterexample: a .heic image with no metadata container is
appended to meta_not_found.txt, but the run performs no rename for it —
the ExifMetadataNotFound handler never falls back to the filesystem
timestamp, contradicting the claimed rename with the IMG_ prefix. -/
theorem c3_counterexample :
    (run_main "d" [⟨"a.heic", statA, some ⟨none, ""⟩⟩]).1.metaNotFound = ["a.heic"] ∧
    (run_main "d" [⟨"a.heic", statA, some ⟨none, ""⟩⟩]).1.renames = [] ∧
    (run_main "d" [⟨"a.heic", statA, some ⟨none, ""⟩⟩]).2 = none := by decide

/-- C3 amended: only date_field_absent gets the logged fallback rename:
its handler appends the name to date_not_found.txt and reruns the
rename section on the filesystem timestamp with the kind prefix; the
metadata_absent handler appends the name to meta_not_found.txt and
prints, performing no rename at all. -/
theorem c3_fallback_behavior (folder : String) (st : RunState) (name : String)
    (fst : FileStat) (b : DateTime)
    (hb : fst.birth = some b)
    (hi : splitext_ext name ∈ valid_image_extensions) :
    (∀ dto : String,
      process_file folder st ⟨name, fst, some ⟨none, dto⟩⟩ =
        ({ st with
           metaNotFound := st.metaNotFound ++ [name],
           console := st.console ++ ["EXIF metadata not found in file: " ++ name] },
         none)) ∧
    (∀ tags : List (Nat × String),
      tags.lookup 36867 = none → tags.lookup 306 = none →
      process_file folder st ⟨name, fst, some ⟨some tags, ""⟩⟩ =
        (do_rename folder
          { st with
            dateNotFound := st.dateNotFound ++ [name],
            console := st.console ++ ["Date not found in file: " ++ name] }
          name
          (get_new_file_name (pymin3 fst.dt_m fst.dt_c b)
            (splitext_ext name) (splitext_ext name)), none)) ∧
    get_file_prefix (splitext_ext name) = "IMG_" := by
  refine ⟨?_, ?_, by simp [ get_file_prefix, hi]⟩
  · intro dto
    simp [process_file, hi, get_image_file_name, image_date_taken,
      Except.instMonad, Except.bind, Except.map]
  · intro tags h1 h2
    simp [process_file, hi, get_image_file_name, image_date_taken, h1, h2,
      get_file_creation_date, hb, Except.instMonad, Except.bind, Except.map]

/-- C3 witness: a .heic file with metadata present but no date field,
and a .heic file with no metadata container, on a concrete stat. -/
theorem c3_fallback_behavior_witness :
    process_file "d" initState ⟨"a.heic", statA, some ⟨none, "zzz"⟩⟩ =
      ({ initState with
         metaNotFound := initState.metaNotFound ++ ["a.heic"],
         console := initState.console ++ ["EXIF metadata not found in file: a.heic"] },
       none) :=
  (c3_fallback_behavior "d" initState "a.heic" statA ⟨2018,4,5,0,0,0⟩ rfl (by decide)).1 "zzz"

/-- C4 counterexample: a run over an undecodable .png followed by a
healthy .jpg stops at the first file with an uncaught error, writes no
log entry of any kind, and never processes the second file — which a
run on the second file alone does rename. -/
theorem c4_counterexample :
    run_main "d" [⟨"b.png", statA, none⟩,
                  ⟨"a.jpg", statA, some ⟨some [(36867, "2018:04:01 17:54:17")], ""⟩⟩] =
      (initState, some PyError.unidentifiedImage) ∧
    (run_main "d" [⟨"a.jpg", statA, some ⟨some [(36867, "2018:04:01 17:54:17")], ""⟩⟩]).1.renames =
      [("d/a.jpg", "d/IMG_20180301_000000.jpg")] := by decide

/-- C4 amended: an image Image.open cannot decode raises an uncaught
UnidentifiedImageError: nothing is logged (there is no
invalid_image_files.txt in the program), no fallback is attempted, and
the run aborts before any remaining file is processed. -/
theorem c4_unreadable_aborts (folder : String) (st : RunState) (name : String)
    (fst : FileStat) (rest : List MediaFile)
    (hi : splitext_ext name ∈ valid_image_extensions) :
    run_files folder st (⟨name, fst, none⟩ :: rest) = (st, some PyError.unidentifiedImage) := by
  simp [run_files, process_file, hi, get_image_file_name]

/-- C4 witness: the abort on a concrete undecodable .png. -/
theorem c4_unreadable_aborts_witness :
    run_files "d" initState [⟨"b.png", statA, none⟩] =
      (initState, some PyError.unidentifiedImage) :=
  c4_unreadable_aborts "d" initState "b.png" statA [] (by decide)

/-- C5 counterexample: tag 36867 present but unparsable makes the
pipeline fail with an uncaught ValueError; the exifread secondary
pathway — which here holds a parseable DateTimeOriginal — is never
attempted, contradicting the claim for the unparsable case. -/
theorem c5_counterexample :
    image_date_taken ⟨some [(36867, "not a date")], "2019:05:06 07:08:09"⟩ =
      Except.error PyError.valueError ∧
    create_datetime "2019:05:06 07:08:09" = some ⟨2019,5,6,7,8,9⟩ := by decide

/-- C5 amended: metadata sources are consulted in the fixed order tag
36867 then tag 306, each parsed with the fixed format; the exifread
secondary pathway for DateTimeOriginal is attempted only when both
primary tags are absent; a present but unparsable tag value instead
raises an uncaught ValueError; and when the secondary also yields
nothing the file is classified date_field_absent. -/
theorem c5_metadata_order (img : ImageMeta) (tags : List (Nat × String))
    (he : img.exif = some tags) :
    (∀ s dt, tags.lookup 36867 = some s → create_datetime s = some dt →
        image_date_taken img = Except.ok dt) ∧
    (∀ s, tags.lookup 36867 = some s → create_datetime s = none →
        image_date_taken img = Except.error PyError.valueError) ∧
    (∀ s dt, tags.lookup 36867 = none → tags.lookup 306 = some s →
        create_datetime s = some dt → image_date_taken img = Except.ok dt) ∧
    (∀ dt, tags.lookup 36867 = none → tags.lookup 306 = none →
        img.exifreadDTO.length > 0 → create_datetime img.exifreadDTO = some dt →
        image_date_taken img = Except.ok dt) ∧
    (tags.lookup 36867 = none → tags.lookup 306 = none → ¬ img.exifreadDTO.length > 0 →
        image_date_taken img = Except.error PyError.dateNotFoundInFile) := by
  refine ⟨?_, ?_, ?_, ?_, ?_⟩
  · intro s dt h1 h2
    simp [image_date_taken, he, h1, h2]
  · intro s h1 h2
    simp [image_date_taken, he, h1, h2]
  · intro s dt h1 h2 h3
    simp [image_date_taken, he, h1, h2, h3]
  · intro dt h1 h2 h3 h4
    simp [image_date_taken, he, h1, h2, h3, h4]
  · intro h1 h2 h3
    simp [image_date_taken, he, h1, h2, h3]

/-- C5 witness: the primary tag wins even when tag 306 and the exifread
value are present and parseable. -/
theorem c5_metadata_order_witness :
    image_date_taken
        ⟨some [(36867, "2018:04:01 17:54:17"), (306, "2019:01:01 00:00:00")],
          "2020:01:01 00:00:00"⟩ =
      Except.ok ⟨2018,4,1,17,54,17⟩ :=
  (c5_metadata_order
      ⟨some [(36867, "2018:04:01 17:54:17"), (306, "2019:01:01 00:00:00")],
        "2020:01:01 00:00:00"⟩
      [(36867, "2018:04:01 17:54:17"), (306, "2019:01:01 00:00:00")] rfl).1
    "2018:04:01 17:54:17" ⟨2018,4,1,17,54,17⟩ (by decide) (by decide)

/-- C8 counterexample: .Jpg is a case variant of the recognized .jpg,
yet it is in neither extension list; a .Jpg file with perfectly good
EXIF is skipped entirely while the same file named .jpg is renamed —
classification is not case-insensitive. -/
theorem c8_counterexample :
    (".jpg" ∈ valid_image_extensions) ∧ (".Jpg" ∉ valid_image_extensions) ∧
    (".Jpg" ∉ valid_video_extensions) ∧
    process_file "d" initState
        ⟨"x.Jpg", statA, some ⟨some [(36867, "2018:04:01 17:54:17")], ""⟩⟩ =
      (initState, none) ∧
    (process_file "d" initState
        ⟨"x.jpg", statA, some ⟨some [(36867, "2018:04:01 17:54:17")], ""⟩⟩).1.renames =
      [("d/x.jpg", "d/IMG_20180301_000000.jpg")] := by decide

/-- C8 amended: classification matches the exact spellings in the two
fixed lists — the all-lowercase and all-uppercase variants of
.jpg/.jpeg/.png/.heic and .mov/.mp4/.mkv — and every file whose
extension is in neither list, including mixed-case variants of
recognized extensions, is skipped entirely: the run state is unchanged,
so nothing is logged, renamed, or printed for it. -/
theorem c8_classification (folder : String) (st : RunState) (f : MediaFile)
    (hni : splitext_ext f.name ∉ valid_image_extensions)
    (hnv : splitext_ext f.name ∉ valid_video_extensions) :
    process_file folder st f = (st, none) ∧
    valid_image_extensions = [".jpg", ".JPG", ".jpeg", ".JPEG", ".png", ".PNG", ".heic", ".HEIC"] ∧
    valid_video_extensions = [".MOV", ".mov", ".MP4", ".mp4", ".MKV", ".mkv"] := by
  refine ⟨?_, rfl, rfl⟩
  simp [process_file, hni, hnv]

/-- C8 witness: a .txt file and the skip of its processing. -/
theorem c8_classification_witness :
    process_file "d" initState
        ⟨"t.txt", statA, some ⟨some [(36867, "2018:04:01 17:54:17")], ""⟩⟩ =
      (initState, none) ∧
    valid_image_extensions = [".jpg", ".JPG", ".jpeg", ".JPEG", ".png", ".PNG", ".heic", ".HEIC"] ∧
    valid_video_extensions = [".MOV", ".mov", ".MP4", ".mp4", ".MKV", ".mkv"] :=
  c8_classification "d" initState
    ⟨"t.txt", statA, some ⟨some [(36867, "2018:04:01 17:54:17")], ""⟩⟩
    (by decide) (by decide)

end IRename
